import Mathlib

/-!
Shallow embedding of the scenario-registry mechanism of the repository
(`src/support/world.ts`), the orchestration layer
(`src/orchestration/navigationOrchestrator.ts`, `contentOrchestrator.ts`,
`baseOrchestrator.ts`), the page-object layer (`src/pages/homepage.page.ts`,
`src/pages/retirement.page.ts`, `src/core/basePage.ts`) and the scenario
lifecycle hooks (`src/support/hooks.ts`).

JavaScript `Map` objects are embedded as association lists with
last-write-wins `set` semantics.  Object construction (`new C(page)`) is
embedded by explicit allocator-state passing: every construction draws a
fresh allocation identifier and records the constructed class in a
construction log, which makes object identity and constructor-call counts
observable.  Thrown exceptions are embedded as `Except.error` results that
leave the world state at the point of the throw.
-/

set_option autoImplicit false

namespace BFQA

/-! ### Association-list embedding of JavaScript `Map` -/

/-- `Map.get`: the value stored for key `k`, or `none` (JS `undefined`). -/
def mapGet {β : Type} (k : String) : List (String × β) → Option β
  | [] => none
  | (k₂, v) :: rest => if k₂ = k then some v else mapGet k rest

/-- `Map.set`: replace the binding for `k` if present, else append it. -/
def mapSet {β : Type} (k : String) (v : β) : List (String × β) → List (String × β)
  | [] => [(k, v)]
  | (k₂, v₂) :: rest =>
      if k₂ = k then (k, v) :: rest else (k₂, v₂) :: mapSet k v rest

/-- `Map.has`. -/
def mapHas {β : Type} (k : String) (m : List (String × β)) : Bool :=
  (mapGet k m).isSome

/-! ### Objects, classes and construction

A constructed collaborator instance records the class it was constructed
from, the class name (`pageClass.name` in the source), the page handle
passed to the constructor, and a fresh allocation identifier that models
JavaScript reference identity. -/

/-- Allocator state: the next fresh reference id and the ordered log of
class ids constructed so far (a constructor-call counter). -/
structure Alloc where
  next : Nat
  log : List Nat
  deriving Repr, DecidableEq

/-- A constructed collaborator instance. Two instances are the same
JavaScript reference exactly when all fields, in particular `allocId`,
agree. -/
structure Instance where
  classId : Nat
  className : String
  pageHandle : Nat
  allocId : Nat
  deriving Repr, DecidableEq

/-- Allocate one object of class `cid` named `nm` holding page `pg`. -/
def allocate (cid : Nat) (nm : String) (pg : Nat) (a : Alloc) :
    Instance × Alloc :=
  (⟨cid, nm, pg, a.next⟩, ⟨a.next + 1, a.log ++ [cid]⟩)

/-- A collaborator class: its identity, its `.name` (distinct classes may
share a `.name`), and the extra constructions its constructor body performs
(the `new HomePage(page)` / `new RetirementPage(page)` lines inside the
orchestrator constructors). -/
structure PClass where
  id : Nat
  name : String
  body : Nat → Alloc → Alloc

/-- `new c(page)`: allocate the object itself, then run the constructor
body (which may construct further page objects). -/
def constructClass (c : PClass) (pg : Nat) (a : Alloc) : Instance × Alloc :=
  let r := allocate c.id c.name pg a
  (r.1, c.body pg r.2)

/-- A constructor body that constructs nothing further (all page-object
classes in the repository). -/
def simpleBody : Nat → Alloc → Alloc := fun _ a => a

/-- `src/pages/homepage.page.ts`: `HomePage`. -/
def HomePage : PClass := ⟨0, "HomePage", simpleBody⟩

/-- `src/pages/retirement.page.ts`: `RetirementPage`. -/
def RetirementPage : PClass := ⟨1, "RetirementPage", simpleBody⟩

/-- `src/orchestration/navigationOrchestrator.ts`: the constructor calls
`super(page)` and then constructs `new HomePage(page)` and
`new RetirementPage(page)`. -/
def NavigationOrchestrator : PClass :=
  ⟨10, "NavigationOrchestrator", fun pg a =>
    (constructClass RetirementPage pg (constructClass HomePage pg a).2).2⟩

/-- `src/orchestration/contentOrchestrator.ts`: the constructor calls
`super(page)` and then constructs `new RetirementPage(page)`. -/
def ContentOrchestrator : PClass :=
  ⟨11, "ContentOrchestrator", fun pg a =>
    (constructClass RetirementPage pg a).2⟩

/-- Well-formedness of a constructor body: construction only allocates
fresh objects, so the allocation counter never decreases.  All constructor
bodies in the repository satisfy this. -/
def BodyOk (b : Nat → Alloc → Alloc) : Prop :=
  ∀ pg a, a.next ≤ (b pg a).next

/-- How many times class `cid` has been constructed according to log `l`. -/
def constructionCount (cid : Nat) (l : List Nat) : Nat :=
  l.count cid

/-! ### The scenario registry (`CustomWorldConstructor` in
`src/support/world.ts`) -/

/-- The per-scenario world: the optional page handle and the three maps
created in the constructor (lines 33–38 of `world.ts`).  `α` is the type
of the untyped (`any`) scenario-data values. -/
structure CustomWorld (α : Type) where
  page : Option Nat
  pageRegistry : List (String × Instance)
  orchestratorRegistry : List (String × Instance)
  scenarioData : List (String × α)
  deriving Repr, DecidableEq

/-- The constructor: all three maps start empty and `page` is not yet
initialized. -/
def newWorld (α : Type) : CustomWorld α :=
  ⟨none, [], [], []⟩

/-- `getPage` (`world.ts` lines 43–54): if the class name is not in the
page registry, throw when `page` is uninitialized, otherwise construct and
insert; finally return `pageRegistry.get(pageName)`.  A throw leaves the
world and allocator unchanged. -/
def getPage {α : Type} (w : CustomWorld α) (c : PClass) (a : Alloc) :
    Except String (Option Instance) × CustomWorld α × Alloc :=
  if mapHas c.name w.pageRegistry then
    (.ok (mapGet c.name w.pageRegistry), w, a)
  else
    match w.page with
    | none => (.error "Page is not initialized", w, a)
    | some pg =>
        let r := constructClass c pg a
        let w₂ : CustomWorld α :=
          { w with pageRegistry := mapSet c.name r.1 w.pageRegistry }
        (.ok (mapGet c.name w₂.pageRegistry), w₂, r.2)

/-- `getOrchestrator` (`world.ts` lines 62–73): identical to `getPage` but
against the orchestrator registry. -/
def getOrchestrator {α : Type} (w : CustomWorld α) (c : PClass) (a : Alloc) :
    Except String (Option Instance) × CustomWorld α × Alloc :=
  if mapHas c.name w.orchestratorRegistry then
    (.ok (mapGet c.name w.orchestratorRegistry), w, a)
  else
    match w.page with
    | none => (.error "Page is not initialized", w, a)
    | some pg =>
        let r := constructClass c pg a
        let w₂ : CustomWorld α :=
          { w with orchestratorRegistry := mapSet c.name r.1 w.orchestratorRegistry }
        (.ok (mapGet c.name w₂.orchestratorRegistry), w₂, r.2)

/-- `setData` (`world.ts` lines 78–80). -/
def setData {α : Type} (w : CustomWorld α) (k : String) (v : α) :
    CustomWorld α :=
  { w with scenarioData := mapSet k v w.scenarioData }

/-- `getData` (`world.ts` lines 85–87): total, `none` models the
`undefined` returned for an absent key. -/
def getData {α : Type} (w : CustomWorld α) (k : String) : Option α :=
  mapGet k w.scenarioData

/-- Decidable equality for `Except`, used to evaluate run results on
concrete inputs. -/
instance {ε α : Type} [DecidableEq ε] [DecidableEq α] :
    DecidableEq (Except ε α) := fun x y =>
  match x, y with
  | .ok a, .ok b => decidable_of_iff (a = b) ⟨congrArg _, Except.ok.inj⟩
  | .error a, .error b =>
      decidable_of_iff (a = b) ⟨congrArg _, Except.error.inj⟩
  | .ok _, .error _ => isFalse (fun h => Except.noConfusion h)
  | .error _, .ok _ => isFalse (fun h => Except.noConfusion h)

/-- A hypothetical second collaborator class whose `.name` collides with
`HomePage` while being a different class (different identity): the
registry key is `pageClass.name`, so such collisions are observable. -/
def HomePageDouble : PClass := ⟨99, "HomePage", simpleBody⟩

/-- A hypothetical second orchestrator class whose `.name` collides with
`ContentOrchestrator` while being a different class: the orchestrator
registry key is `orchestratorClass.name`, so such collisions are
observable there too. -/
def ContentOrchestratorDouble : PClass := ⟨98, "ContentOrchestrator", simpleBody⟩

/-! ### Page-object and orchestrator operations as action traces

Every page-object method body is a straight-line sequence of Page-wrapper
primitives (`waitFor`, `hover`, `click`, `scrollIntoViewIfNeeded`,
`textContent`, `evaluate`, `waitForLoadState`, `waitForTimeout`, `goto`).
Each method is embedded as the list of primitives it issues, in source
order; an environment decides which primitive invocations fail. -/

/-- One Page-wrapper primitive invocation. -/
inductive PAction where
  | waitForElement (selector : String) (timeoutMs : Nat)
  | hoverElement (selector : String)
  | clickElement (selector : String)
  | scrollElementIntoView (selector : String)
  | readText (selector : String)
  | evalScrollToBottom
  | waitForLoadState
  | waitTimeout (ms : Nat)
  | gotoUrl (url : String)
  deriving Repr, DecidableEq

/-- The `industriesLink` locator of `HomePage`
(`getByRole(navigation).getByRole(link, name Industries)`). -/
def industriesSelector : String := "navigation link Industries"

/-- Locator built by `HomePage.getSectionLink`. -/
def sectionLinkSelector (sectionName : String) : String :=
  "link " ++ sectionName

/-- Locator built by `RetirementPage.getSectionHeading`. -/
def sectionHeadingSelector (headingText : String) : String :=
  "text " ++ headingText

/-- Locator built by `RetirementPage.getTile`. -/
def tileSelector (tileName : String) : String := "text " ++ tileName

/-- Locator built by `RetirementPage.getTileContainer`. -/
def tileContainerSelector (tileName : String) : String :=
  "card-wrapper " ++ tileName ++ " flip-card-back"

/-- Locator built by `RetirementPage.getButton`. -/
def buttonSelector (buttonText : String) : String :=
  "anchor has-text " ++ buttonText

/-- `HomePage.hoverOnIndustries` (`homepage.page.ts` lines 14–21):
`waitFor(timeout 10000)`, `hover`, then a 1000 ms animation wait. -/
def hoverOnIndustriesActions : List PAction :=
  [.waitForElement industriesSelector 10000,
   .hoverElement industriesSelector,
   .waitTimeout 1000]

/-- `HomePage.openSection` (`homepage.page.ts` lines 27–37). -/
def openSectionActions (sectionName : String) : List PAction :=
  [.waitForElement (sectionLinkSelector sectionName) 10000,
   .clickElement (sectionLinkSelector sectionName),
   .waitForLoadState,
   .waitTimeout 1000]

/-- `RetirementPage.scrollToSection` (`retirement.page.ts` lines 16–22). -/
def scrollToSectionActions (sectionHeading : String) : List PAction :=
  [.waitForElement (sectionHeadingSelector sectionHeading) 10000,
   .scrollElementIntoView (sectionHeadingSelector sectionHeading)]

/-- `RetirementPage.hoverAndCopyTextFromTile` (`retirement.page.ts`
lines 32–47). -/
def hoverAndCopyTextFromTileActions (tileName : String) : List PAction :=
  [.waitForElement (tileSelector tileName) 10000,
   .hoverElement (tileSelector tileName),
   .readText (tileContainerSelector tileName)]

/-- `RetirementPage.scrollToBottom` (`retirement.page.ts` lines 49–53):
a single whole-page `evaluate(scrollTo)` with no element wait. -/
def scrollToBottomActions : List PAction :=
  [.evalScrollToBottom]

/-- `RetirementPage.clickButton` (`retirement.page.ts` lines 59–68). -/
def clickButtonActions (buttonText : String) : List PAction :=
  [.waitForElement (buttonSelector buttonText) 10000,
   .scrollElementIntoView (buttonSelector buttonText),
   .clickElement (buttonSelector buttonText),
   .waitForLoadState]

/-- `BasePage.goto` (`core/basePage.ts` lines 10–13). -/
def gotoActions (url : String) : List PAction :=
  [.gotoUrl url]

/-- `NavigationOrchestrator.navigateToIndustrySection`
(`navigationOrchestrator.ts` lines 50–54): hover on the Industries menu,
then open the named section — a fixed sequence of the two page-object
calls. -/
def navigateToIndustrySectionActions (sectionName : String) : List PAction :=
  hoverOnIndustriesActions ++ openSectionActions sectionName

/-- `ContentOrchestrator.getTileContent` (`contentOrchestrator.ts`
lines 23–27): a single page-object call. -/
def getTileContentActions (tileName : String) : List PAction :=
  hoverAndCopyTextFromTileActions tileName

/-- `NavigationOrchestrator.clickNavigationButton`
(`navigationOrchestrator.ts` lines 75–79): the page-object call followed
by the orchestrator's own `waitForPageReady`. -/
def clickNavigationButtonActions (buttonText : String) : List PAction :=
  clickButtonActions buttonText ++ [.waitForLoadState]

/-- Run a straight-line sequence of primitives under an environment that
decides success or failure of each one.  All `await`ed calls propagate a
failure immediately: the result carries the first error unchanged and the
trace of primitives actually executed (each at most once, in order). -/
def runActions (env : PAction → Except String Unit) :
    List PAction → Except String Unit × List PAction
  | [] => (.ok (), [])
  | act :: rest =>
      match env act with
      | .error e => (.error e, [act])
      | .ok _ =>
          let r := runActions env rest
          (r.1, act :: r.2)

/-- Does an operation open with a bounded element wait? -/
def beginsWithElementWait : List PAction → Bool
  | .waitForElement _ _ :: _ => true
  | _ => false

/-- Does an operation contain any element wait at all? -/
def containsElementWait (l : List PAction) : Bool :=
  l.any fun a =>
    match a with
    | .waitForElement _ _ => true
    | _ => false

/-! ### The scenario-end hook (`After` in `src/support/hooks.ts`) -/

/-- Scenario result statuses reported by the runner. -/
inductive ScenarioStatus where
  | passed
  | failed
  | skipped
  | pending
  | ambiguous
  | unknown
  deriving Repr, DecidableEq

/-- Observable outcome of the `After` hook: artifacts written to the
reports directories, report attachments, and which resources were
closed. -/
structure AfterOutcome where
  screenshotsWritten : Nat
  tracesWritten : Nat
  attachedMimeTypes : List String
  pageClosed : Bool
  contextClosed : Bool
  deriving Repr, DecidableEq

/-- The `After` hook (`hooks.ts` lines 53–92): screenshot only when the
result status is FAILED (and the optional page handle is present, via
`this.page?.screenshot`), then the screenshot buffer is attached; tracing
is stopped and the trace file written and attached whenever the context
handle is present; finally `page?.close()` and `context?.close()`. -/
def afterHook (status : ScenarioStatus) (hasPage hasContext : Bool) :
    AfterOutcome :=
  let screenshots : Nat :=
    if status = ScenarioStatus.failed then (if hasPage then 1 else 0) else 0
  let screenshotAttach : List String :=
    if status = ScenarioStatus.failed then
      (if hasPage then ["image/png"] else []) else []
  let traces : Nat := if hasContext then 1 else 0
  let traceAttach : List String :=
    if hasContext then ["application/zip"] else []
  { screenshotsWritten := screenshots
    tracesWritten := traces
    attachedMimeTypes := screenshotAttach ++ traceAttach
    pageClosed := hasPage
    contextClosed := hasContext }

/-! ### Lemmas about the map embedding -/

theorem mapGet_mapSet_self {β : Type} (k : String) (v : β)
    (m : List (String × β)) : mapGet k (mapSet k v m) = some v := by
  induction m with
  | nil => simp [mapGet, mapSet]
  | cons p rest ih =>
      obtain ⟨k₂, v₂⟩ := p
      by_cases h : k₂ = k
      · simp [mapGet, mapSet, h]
      · simp [mapGet, mapSet, h, ih]

theorem mapGet_mapSet_ne {β : Type} (k k₂ : String) (v : β)
    (m : List (String × β)) (h : k₂ ≠ k) :
    mapGet k (mapSet k₂ v m) = mapGet k m := by
  induction m with
  | nil => simp [mapGet, mapSet, h]
  | cons p rest ih =>
      obtain ⟨k₃, v₃⟩ := p
      by_cases h₃ : k₃ = k₂
      · subst h₃
        simp [mapGet, mapSet, h]
      · by_cases h₄ : k₃ = k
        · subst h₄
          simp [mapGet, mapSet, h₃]
        · simp [mapGet, mapSet, h₃, h₄, ih]

theorem mapHas_mapSet_self {β : Type} (k : String) (v : β)
    (m : List (String × β)) : mapHas k (mapSet k v m) = true := by
  simp [mapHas, mapGet_mapSet_self]

theorem length_mapSet_of_not_has {β : Type} (k : String) (v : β)
    (m : List (String × β)) (h : mapHas k m = false) :
    (mapSet k v m).length = m.length + 1 := by
  induction m with
  | nil => simp [mapSet]
  | cons p rest ih =>
      obtain ⟨k₂, v₂⟩ := p
      by_cases hk : k₂ = k
      · simp [mapHas, mapGet, hk] at h
      · simp only [mapHas, mapGet, hk, if_false] at h
        simp [mapSet, hk, ih h]

/-! ### Lemmas about registry calls and action runs -/

theorem getPage_ok_cached {α : Type} (w : CustomWorld α) (c : PClass)
    (a : Alloc) (r : Option Instance) (w₁ : CustomWorld α) (a₁ : Alloc)
    (h : getPage w c a = (.ok r, w₁, a₁)) :
    mapHas c.name w₁.pageRegistry = true := by
  by_cases hHas : mapHas c.name w.pageRegistry
  · simp only [getPage, hHas, if_true, Prod.mk.injEq] at h
    rw [← h.2.1]; exact hHas
  · simp only [Bool.not_eq_true] at hHas
    simp only [getPage, hHas, Bool.false_eq_true, if_false] at h
    cases hpage : w.page with
    | none =>
        rw [hpage] at h
        simp only [Prod.mk.injEq] at h
        cases h.1
    | some pg =>
        rw [hpage] at h
        simp only [Prod.mk.injEq] at h
        rw [← h.2.1]
        exact mapHas_mapSet_self _ _ _

theorem getOrchestrator_ok_cached {α : Type} (w : CustomWorld α)
    (c : PClass) (a : Alloc) (r : Option Instance) (w₁ : CustomWorld α)
    (a₁ : Alloc) (h : getOrchestrator w c a = (.ok r, w₁, a₁)) :
    mapHas c.name w₁.orchestratorRegistry = true := by
  by_cases hHas : mapHas c.name w.orchestratorRegistry
  · simp only [getOrchestrator, hHas, if_true, Prod.mk.injEq] at h
    rw [← h.2.1]; exact hHas
  · simp only [Bool.not_eq_true] at hHas
    simp only [getOrchestrator, hHas, Bool.false_eq_true, if_false] at h
    cases hpage : w.page with
    | none =>
        rw [hpage] at h
        simp only [Prod.mk.injEq] at h
        cases h.1
    | some pg =>
        rw [hpage] at h
        simp only [Prod.mk.injEq] at h
        rw [← h.2.1]
        exact mapHas_mapSet_self _ _ _

theorem runActions_all_ok (env : PAction → Except String Unit)
    (l : List PAction) (h : ∀ x ∈ l, env x = .ok ()) :
    runActions env l = (.ok (), l) := by
  induction l with
  | nil => rfl
  | cons act rest ih =>
      have hact := h act (List.mem_cons_self act rest)
      simp only [runActions, hact]
      rw [ih (fun x hx => h x (List.mem_cons_of_mem _ hx))]

theorem runActions_first_error (env : PAction → Except String Unit)
    (pre : List PAction) (act : PAction) (post : List PAction) (e : String)
    (hpre : ∀ x ∈ pre, env x = .ok ()) (hact : env act = .error e) :
    runActions env (pre ++ act :: post) = (.error e, pre ++ [act]) := by
  induction pre with
  | nil =>
      simp only [List.nil_append]
      simp [runActions, hact]
  | cons y ys ih =>
      have hy := hpre y (List.mem_cons_self y ys)
      simp only [List.cons_append, runActions, hy, List.append_eq]
      rw [ih (fun x hx => hpre x (List.mem_cons_of_mem _ hx))]

/-! ### Claim theorems -/

/-- C1: requesting the same collaborator type twice from one
`ScenarioContext` is memoized: any successful `getPage` (resp.
`getOrchestrator`) call for class `c` inserts exactly one registry entry
when `c` was not cached, and a repeated call returns the identical stored
result and leaves the world and allocator unchanged. -/
theorem getPage_getOrchestrator_memoized {α : Type} (w : CustomWorld α)
    (c : PClass) (a : Alloc) (r : Option Instance) (w₁ : CustomWorld α)
    (a₁ : Alloc) :
    (getPage w c a = (.ok r, w₁, a₁) →
      getPage w₁ c a₁ = (.ok r, w₁, a₁) ∧
      (mapHas c.name w.pageRegistry = false →
        w₁.pageRegistry.length = w.pageRegistry.length + 1) ∧
      (mapHas c.name w.pageRegistry = true → w₁ = w ∧ a₁ = a)) ∧
    (getOrchestrator w c a = (.ok r, w₁, a₁) →
      getOrchestrator w₁ c a₁ = (.ok r, w₁, a₁) ∧
      (mapHas c.name w.orchestratorRegistry = false →
        w₁.orchestratorRegistry.length = w.orchestratorRegistry.length + 1) ∧
      (mapHas c.name w.orchestratorRegistry = true → w₁ = w ∧ a₁ = a)) := by
  constructor
  · intro h
    by_cases hHas : mapHas c.name w.pageRegistry
    · simp only [getPage, hHas, if_true, Prod.mk.injEq, Except.ok.injEq] at h
      obtain ⟨h₁, h₂, h₃⟩ := h
      subst h₂; subst h₃
      refine ⟨?_, ?_, fun _ => ⟨rfl, rfl⟩⟩
      · simp only [getPage, hHas, if_true, h₁]
      · intro hf; rw [hHas] at hf; cases hf
    · simp only [Bool.not_eq_true] at hHas
      simp only [getPage, hHas, Bool.false_eq_true, if_false] at h
      cases hpage : w.page with
      | none =>
          rw [hpage] at h
          simp only [Prod.mk.injEq] at h
          cases h.1
      | some pg =>
          rw [hpage] at h
          simp only [Prod.mk.injEq, Except.ok.injEq] at h
          obtain ⟨h₁, h₂, h₃⟩ := h
          subst h₂
          have hreg : mapHas c.name
              (mapSet c.name (constructClass c pg a).1 w.pageRegistry) = true :=
            mapHas_mapSet_self _ _ _
          refine ⟨?_, ?_, ?_⟩
          · simp only [getPage, hreg, if_true, h₁]
          · intro _
            exact length_mapSet_of_not_has _ _ _ hHas
          · intro hf; rw [hHas] at hf; cases hf
  · intro h
    by_cases hHas : mapHas c.name w.orchestratorRegistry
    · simp only [getOrchestrator, hHas, if_true, Prod.mk.injEq,
        Except.ok.injEq] at h
      obtain ⟨h₁, h₂, h₃⟩ := h
      subst h₂; subst h₃
      refine ⟨?_, ?_, fun _ => ⟨rfl, rfl⟩⟩
      · simp only [getOrchestrator, hHas, if_true, h₁]
      · intro hf; rw [hHas] at hf; cases hf
    · simp only [Bool.not_eq_true] at hHas
      simp only [getOrchestrator, hHas, Bool.false_eq_true, if_false] at h
      cases hpage : w.page with
      | none =>
          rw [hpage] at h
          simp only [Prod.mk.injEq] at h
          cases h.1
      | some pg =>
          rw [hpage] at h
          simp only [Prod.mk.injEq, Except.ok.injEq] at h
          obtain ⟨h₁, h₂, h₃⟩ := h
          subst h₂
          have hreg : mapHas c.name
              (mapSet c.name (constructClass c pg a).1 w.orchestratorRegistry)
              = true := mapHas_mapSet_self _ _ _
          refine ⟨?_, ?_, ?_⟩
          · simp only [getOrchestrator, hreg, if_true, h₁]
          · intro _
            exact length_mapSet_of_not_has _ _ _ hHas
          · intro hf; rw [hHas] at hf; cases hf

/-- Witness for C1 at a concrete input: a fresh world with page handle 7,
requesting `HomePage` twice. -/
theorem getPage_getOrchestrator_memoized_witness :
    getPage (α := Nat) ⟨some 7, [], [], []⟩ HomePage ⟨0, []⟩
      = (.ok (some ⟨0, "HomePage", 7, 0⟩),
         ⟨some 7, [("HomePage", ⟨0, "HomePage", 7, 0⟩)], [], []⟩, ⟨1, [0]⟩) ∧
    getPage (α := Nat)
        ⟨some 7, [("HomePage", ⟨0, "HomePage", 7, 0⟩)], [], []⟩
        HomePage ⟨1, [0]⟩
      = (.ok (some ⟨0, "HomePage", 7, 0⟩),
         ⟨some 7, [("HomePage", ⟨0, "HomePage", 7, 0⟩)], [], []⟩, ⟨1, [0]⟩) := by
  refine ⟨by rfl, ?_⟩
  exact ((getPage_getOrchestrator_memoized
    ⟨some 7, [], [], []⟩ HomePage ⟨0, []⟩
    (some ⟨0, "HomePage", 7, 0⟩)
    ⟨some 7, [("HomePage", ⟨0, "HomePage", 7, 0⟩)], [], []⟩
    ⟨1, [0]⟩).1 (by rfl)).1

/-- C3: requesting a not-yet-cached collaborator while the page handle is
uninitialized throws `"Page is not initialized"` and leaves the world (in
particular both registries) and the allocator unchanged. -/
theorem uninitialized_page_error {α : Type} (w : CustomWorld α) (c : PClass)
    (a : Alloc) (hpage : w.page = none) :
    (mapHas c.name w.pageRegistry = false →
      getPage w c a = (.error "Page is not initialized", w, a)) ∧
    (mapHas c.name w.orchestratorRegistry = false →
      getOrchestrator w c a = (.error "Page is not initialized", w, a)) := by
  constructor
  · intro hp
    simp [getPage, hp, hpage]
  · intro ho
    simp [getOrchestrator, ho, hpage]

/-- Witness for C3: a completely fresh world with no page handle. -/
theorem uninitialized_page_error_witness :
    getPage (α := Nat) (newWorld Nat) RetirementPage ⟨0, []⟩
      = (.error "Page is not initialized", newWorld Nat, ⟨0, []⟩) ∧
    getOrchestrator (α := Nat) (newWorld Nat) NavigationOrchestrator ⟨0, []⟩
      = (.error "Page is not initialized", newWorld Nat, ⟨0, []⟩) := by
  refine ⟨?_, ?_⟩
  · exact (uninitialized_page_error (newWorld Nat) RetirementPage
      ⟨0, []⟩ (by decide)).1 (by decide)
  · exact (uninitialized_page_error (newWorld Nat) NavigationOrchestrator
      ⟨0, []⟩ (by decide)).2 (by decide)

/-- C4: `getData` after `setData` on the same key returns exactly the
stored value, a second `setData` on the same key unconditionally
overwrites it (last-write-wins), `setData` on a different key does not
disturb it, a fresh world answers `none` (the `undefined` absent signal)
for every key, and `getData` is total (never throws). -/
theorem setData_getData_lastWriteWins {α : Type} (w : CustomWorld α)
    (k k₂ : String) (v v₂ : α) :
    getData (setData w k v) k = some v ∧
    getData (setData (setData w k v) k v₂) k = some v₂ ∧
    (k₂ ≠ k → getData (setData w k₂ v₂) k = getData w k) ∧
    getData (newWorld α) k = none := by
  refine ⟨?_, ?_, ?_, ?_⟩
  · simp [getData, setData, mapGet_mapSet_self]
  · simp [getData, setData, mapGet_mapSet_self]
  · intro hne
    simp [getData, setData, mapGet_mapSet_ne _ _ _ _ hne]
  · simp [getData, newWorld, mapGet]

/-- Witness for C4 at concrete keys and values. -/
theorem setData_getData_lastWriteWins_witness :
    ("other" : String) ≠ "answer" ∧
    getData (setData (setData (newWorld Nat) "answer" 41) "other" 5) "answer"
      = getData (setData (newWorld Nat) "answer" 41) "answer" := by
  refine ⟨by decide, ?_⟩
  exact (setData_getData_lastWriteWins
    (setData (newWorld Nat) "answer" 41) "answer" "other" 0 5).2.2.1
    (by decide)

/-- C9: both collaborator registries are keyed by the constructor name
string: after a class `c` with name `c.name` is cached, requesting any
class `c₂` with the same `.name` from the same registry returns the
cached instance of `c` (its `classId` is `c.id`), changes nothing, and
constructs no instance of `c₂` — for `getPage` over the page registry and
for `getOrchestrator` over the orchestrator registry alike. -/
theorem registry_keyed_by_name {α : Type} (w : CustomWorld α) (c c₂ : PClass)
    (a : Alloc) (pg : Nat) (hname : c₂.name = c.name)
    (hHasP : mapHas c.name w.pageRegistry = false)
    (hHasO : mapHas c.name w.orchestratorRegistry = false)
    (hpage : w.page = some pg) :
    (∃ i w₁ a₁,
      getPage w c a = (.ok (some i), w₁, a₁) ∧
      i.classId = c.id ∧
      getPage w₁ c₂ a₁ = (.ok (some i), w₁, a₁) ∧
      (c₂.id ≠ c.id → i.classId ≠ c₂.id)) ∧
    (∃ i w₁ a₁,
      getOrchestrator w c a = (.ok (some i), w₁, a₁) ∧
      i.classId = c.id ∧
      getOrchestrator w₁ c₂ a₁ = (.ok (some i), w₁, a₁) ∧
      (c₂.id ≠ c.id → i.classId ≠ c₂.id)) := by
  constructor
  · refine ⟨(constructClass c pg a).1,
      { w with pageRegistry :=
          mapSet c.name (constructClass c pg a).1 w.pageRegistry },
      (constructClass c pg a).2, ?_, rfl, ?_, ?_⟩
    · simp [getPage, hHasP, hpage, mapGet_mapSet_self]
    · simp [getPage, hname, mapHas_mapSet_self, mapGet_mapSet_self]
    · intro hne hc
      simp only [constructClass, allocate] at hc
      exact hne hc.symm
  · refine ⟨(constructClass c pg a).1,
      { w with orchestratorRegistry :=
          mapSet c.name (constructClass c pg a).1 w.orchestratorRegistry },
      (constructClass c pg a).2, ?_, rfl, ?_, ?_⟩
    · simp [getOrchestrator, hHasO, hpage, mapGet_mapSet_self]
    · simp [getOrchestrator, hname, mapHas_mapSet_self, mapGet_mapSet_self]
    · intro hne hc
      simp only [constructClass, allocate] at hc
      exact hne hc.symm

/-- Witness for C9 on both registries: `HomePageDouble` (id 99) shares
the name `"HomePage"`, and after caching `HomePage` the page registry
returns the cached `HomePage` instance for it; likewise
`ContentOrchestratorDouble` (id 98) shares the name
`"ContentOrchestrator"`, and after caching `ContentOrchestrator` the
orchestrator registry returns the cached `ContentOrchestrator` instance
for it. -/
theorem registry_keyed_by_name_witness :
    (∃ i w₁ a₁,
      getPage (α := Nat) ⟨some 3, [], [], []⟩ HomePage ⟨5, []⟩
        = (.ok (some i), w₁, a₁) ∧
      i.classId = HomePage.id ∧
      getPage w₁ HomePageDouble a₁ = (.ok (some i), w₁, a₁) ∧
      (HomePageDouble.id ≠ HomePage.id → i.classId ≠ HomePageDouble.id)) ∧
    (∃ i w₁ a₁,
      getOrchestrator (α := Nat) ⟨some 3, [], [], []⟩ ContentOrchestrator
          ⟨5, []⟩
        = (.ok (some i), w₁, a₁) ∧
      i.classId = ContentOrchestrator.id ∧
      getOrchestrator w₁ ContentOrchestratorDouble a₁
        = (.ok (some i), w₁, a₁) ∧
      (ContentOrchestratorDouble.id ≠ ContentOrchestrator.id →
        i.classId ≠ ContentOrchestratorDouble.id)) := by
  constructor
  · exact (registry_keyed_by_name ⟨some 3, [], [], []⟩ HomePage
      HomePageDouble ⟨5, []⟩ 3 (by rfl) (by rfl) (by rfl) (by rfl)).1
  · exact (registry_keyed_by_name ⟨some 3, [], [], []⟩ ContentOrchestrator
      ContentOrchestratorDouble ⟨5, []⟩ 3 (by rfl) (by rfl) (by rfl)
      (by rfl)).2

/-- C10: the initialization check and the page-handle capture happen only
at first construction: the constructed instance keeps the handle `pg` it
was built with, and once cached, requests for that type succeed and return
that instance unchanged for every later value of the context page field —
including `none` (cleared) and replaced handles. -/
theorem cached_collaborator_ignores_page_field {α : Type}
    (w : CustomWorld α) (c : PClass) (a : Alloc) (pg : Nat)
    (hHasP : mapHas c.name w.pageRegistry = false)
    (hHasO : mapHas c.name w.orchestratorRegistry = false)
    (hpage : w.page = some pg) :
    (∃ i w₁ a₁,
      getPage w c a = (.ok (some i), w₁, a₁) ∧ i.pageHandle = pg ∧
      ∀ p₂ : Option Nat,
        getPage { w₁ with page := p₂ } c a₁
          = (.ok (some i), { w₁ with page := p₂ }, a₁)) ∧
    (∃ i w₁ a₁,
      getOrchestrator w c a = (.ok (some i), w₁, a₁) ∧ i.pageHandle = pg ∧
      ∀ p₂ : Option Nat,
        getOrchestrator { w₁ with page := p₂ } c a₁
          = (.ok (some i), { w₁ with page := p₂ }, a₁)) := by
  constructor
  · refine ⟨(constructClass c pg a).1,
      { w with pageRegistry :=
          mapSet c.name (constructClass c pg a).1 w.pageRegistry },
      (constructClass c pg a).2, ?_, rfl, ?_⟩
    · simp [getPage, hHasP, hpage, mapGet_mapSet_self]
    · intro p₂
      simp [getPage, mapHas_mapSet_self, mapGet_mapSet_self]
  · refine ⟨(constructClass c pg a).1,
      { w with orchestratorRegistry :=
          mapSet c.name (constructClass c pg a).1 w.orchestratorRegistry },
      (constructClass c pg a).2, ?_, rfl, ?_⟩
    · simp [getOrchestrator, hHasO, hpage, mapGet_mapSet_self]
    · intro p₂
      simp [getOrchestrator, mapHas_mapSet_self, mapGet_mapSet_self]

/-- Witness for C10: construct `RetirementPage` with page handle 4, then
clear the context page field; the cached request still succeeds and the
instance still holds handle 4. -/
theorem cached_collaborator_ignores_page_field_witness :
    ∃ i w₁ a₁,
      getPage (α := Nat) ⟨some 4, [], [], []⟩ RetirementPage ⟨0, []⟩
        = (.ok (some i), w₁, a₁) ∧ i.pageHandle = 4 ∧
      getPage { w₁ with page := none } RetirementPage a₁
        = (.ok (some i), { w₁ with page := none }, a₁) := by
  obtain ⟨⟨i, w₁, a₁, h₁, h₂, h₃⟩, -⟩ :=
    cached_collaborator_ignores_page_field (α := Nat) ⟨some 4, [], [], []⟩
      RetirementPage ⟨0, []⟩ 4 (by rfl) (by rfl) (by rfl)
  exact ⟨i, w₁, a₁, h₁, h₂, h₃ none⟩

/-- C5: a freshly constructed world has empty registries and an empty
data map; two different worlds driven from one allocation stream receive
distinct instances for the same collaborator class (fresh allocation ids);
and scenario data is isolated: writing in one world is visible there while
the other world still answers `none`. -/
theorem fresh_world_isolation {α : Type} (c : PClass) (hb : BodyOk c.body)
    (p₁ p₂ : Nat) (a₀ : Alloc) (k : String) (v : α) :
    (newWorld α).pageRegistry = [] ∧
    (newWorld α).orchestratorRegistry = [] ∧
    (newWorld α).scenarioData = [] ∧
    ∃ i₁ w₁ a₁ i₂ w₂ a₂,
      getPage { newWorld α with page := some p₁ } c a₀
        = (.ok (some i₁), w₁, a₁) ∧
      getPage { newWorld α with page := some p₂ } c a₁
        = (.ok (some i₂), w₂, a₂) ∧
      i₁ ≠ i₂ ∧
      getData (setData w₁ k v) k = some v ∧
      getData w₂ k = none := by
  refine ⟨rfl, rfl, rfl,
    (constructClass c p₁ a₀).1,
    ⟨some p₁, [(c.name, (constructClass c p₁ a₀).1)], [], []⟩,
    (constructClass c p₁ a₀).2,
    (constructClass c p₂ (constructClass c p₁ a₀).2).1,
    ⟨some p₂,
      [(c.name, (constructClass c p₂ (constructClass c p₁ a₀).2).1)],
      [], []⟩,
    (constructClass c p₂ (constructClass c p₁ a₀).2).2,
    ?_, ?_, ?_, ?_, ?_⟩
  · simp [getPage, newWorld, mapHas, mapGet, mapSet]
  · simp [getPage, newWorld, mapHas, mapGet, mapSet]
  · intro heq
    have hids := congrArg Instance.allocId heq
    have h₁ : (constructClass c p₁ a₀).1.allocId = a₀.next := rfl
    have h₂ : (constructClass c p₂ (constructClass c p₁ a₀).2).1.allocId
        = (c.body p₁ ⟨a₀.next + 1, a₀.log ++ [c.id]⟩).next := rfl
    have hle : a₀.next + 1
        ≤ (c.body p₁ ⟨a₀.next + 1, a₀.log ++ [c.id]⟩).next :=
      hb p₁ ⟨a₀.next + 1, a₀.log ++ [c.id]⟩
    rw [h₁, h₂] at hids
    omega
  · simp [getData, setData, mapGet, mapSet]
  · simp [getData, mapGet]

/-- Witness for C5: `HomePage` requested from two fresh worlds with page
handles 3 and 4; `BodyOk` holds for its (trivial) constructor body. -/
theorem fresh_world_isolation_witness :
    (newWorld Nat).pageRegistry = [] ∧
    (newWorld Nat).orchestratorRegistry = [] ∧
    (newWorld Nat).scenarioData = [] ∧
    ∃ i₁ w₁ a₁ i₂ w₂ a₂,
      getPage { newWorld Nat with page := some 3 } HomePage ⟨0, []⟩
        = (.ok (some i₁), w₁, a₁) ∧
      getPage { newWorld Nat with page := some 4 } HomePage a₁
        = (.ok (some i₂), w₂, a₂) ∧
      i₁ ≠ i₂ ∧
      getData (setData w₁ "stored" 9) "stored" = some 9 ∧
      getData w₂ "stored" = none :=
  fresh_world_isolation HomePage (fun _ _ => Nat.le_refl _) 3 4 ⟨0, []⟩
    "stored" 9

/-- C2 counterexample: in one ScenarioContext (page handle 1), requesting
`NavigationOrchestrator` from the registry and then requesting
`RetirementPage` from the registry constructs `RetirementPage` twice —
once inside the orchestrator constructor and once for the page registry —
refuting "at most one instance of each collaborator type is ever
constructed per ScenarioContext". -/
theorem one_instance_per_type_counterexample :
    (getOrchestrator (α := Nat) ⟨some 1, [], [], []⟩
        NavigationOrchestrator ⟨0, []⟩).1
      = .ok (some ⟨10, "NavigationOrchestrator", 1, 0⟩) ∧
    (getPage
        (getOrchestrator (α := Nat) ⟨some 1, [], [], []⟩
          NavigationOrchestrator ⟨0, []⟩).2.1
        RetirementPage
        (getOrchestrator (α := Nat) ⟨some 1, [], [], []⟩
          NavigationOrchestrator ⟨0, []⟩).2.2).1
      = .ok (some ⟨1, "RetirementPage", 1, 3⟩) ∧
    constructionCount RetirementPage.id
      (getPage
        (getOrchestrator (α := Nat) ⟨some 1, [], [], []⟩
          NavigationOrchestrator ⟨0, []⟩).2.1
        RetirementPage
        (getOrchestrator (α := Nat) ⟨some 1, [], [], []⟩
          NavigationOrchestrator ⟨0, []⟩).2.2).2.2.log = 2 := by
  refine ⟨by decide, by decide, by decide⟩

/-- C2 amended: each registry constructs a collaborator type at most once
— a repeated `getPage`/`getOrchestrator` call after a successful one
changes neither the world nor the allocator — but orchestrator
constructors additionally construct their own page objects directly,
bypassing the registries (`NavigationOrchestrator` constructs its own
`HomePage` and `RetirementPage`; `ContentOrchestrator` its own
`RetirementPage`), so a page-object type reached both through the registry
and inside an orchestrator is constructed more than once per scenario. -/
theorem registry_once_orchestrators_construct_directly :
    (∀ (α : Type) (w : CustomWorld α) (c : PClass) (a : Alloc)
        (r : Option Instance) (w₁ : CustomWorld α) (a₁ : Alloc),
      getPage w c a = (.ok r, w₁, a₁) →
        (getPage w₁ c a₁).2.1 = w₁ ∧ (getPage w₁ c a₁).2.2 = a₁) ∧
    (∀ (α : Type) (w : CustomWorld α) (c : PClass) (a : Alloc)
        (r : Option Instance) (w₁ : CustomWorld α) (a₁ : Alloc),
      getOrchestrator w c a = (.ok r, w₁, a₁) →
        (getOrchestrator w₁ c a₁).2.1 = w₁ ∧
        (getOrchestrator w₁ c a₁).2.2 = a₁) ∧
    (∀ (pg : Nat) (a : Alloc),
      (NavigationOrchestrator.body pg a).log
        = a.log ++ [HomePage.id, RetirementPage.id]) ∧
    (∀ (pg : Nat) (a : Alloc),
      (ContentOrchestrator.body pg a).log = a.log ++ [RetirementPage.id]) := by
  refine ⟨?_, ?_, ?_, ?_⟩
  · intro α w c a r w₁ a₁ h
    have hc := getPage_ok_cached w c a r w₁ a₁ h
    constructor <;> simp [getPage, hc]
  · intro α w c a r w₁ a₁ h
    have hc := getOrchestrator_ok_cached w c a r w₁ a₁ h
    constructor <;> simp [getOrchestrator, hc]
  · intro pg a
    simp [NavigationOrchestrator, constructClass, allocate, simpleBody,
      HomePage, RetirementPage]
  · intro pg a
    simp [ContentOrchestrator, constructClass, allocate, simpleBody,
      RetirementPage]

/-- Witness for the amended C2: after a successful first `getPage` for
`HomePage` (page handle 8), the repeated request changes neither the
world nor the allocator. -/
theorem registry_once_orchestrators_construct_directly_witness :
    (getPage (α := Nat)
        ⟨some 8, [("HomePage", ⟨0, "HomePage", 8, 0⟩)], [], []⟩
        HomePage ⟨1, [0]⟩).2.1
      = ⟨some 8, [("HomePage", ⟨0, "HomePage", 8, 0⟩)], [], []⟩ ∧
    (getPage (α := Nat)
        ⟨some 8, [("HomePage", ⟨0, "HomePage", 8, 0⟩)], [], []⟩
        HomePage ⟨1, [0]⟩).2.2 = ⟨1, [0]⟩ :=
  registry_once_orchestrators_construct_directly.1 Nat
    ⟨some 8, [], [], []⟩ HomePage ⟨0, []⟩
    (some ⟨0, "HomePage", 8, 0⟩)
    ⟨some 8, [("HomePage", ⟨0, "HomePage", 8, 0⟩)], [], []⟩
    ⟨1, [0]⟩ (by rfl)

/-- C7: `navigateToIndustrySection` is the fixed sequence "hover on the
Industries menu, then open the named section"; when every primitive
succeeds, each orchestrator operation executes exactly its fixed sequence
in order, and when the first failing primitive fails with error `e`, the
operation fails with exactly `e`, the failing primitive having run once
and nothing after it — no retry, no suppression, at any layer. -/
theorem orchestrator_sequences_propagate_failures
    (env : PAction → Except String Unit) (s t e : String)
    (pre post : List PAction) (act : PAction) :
    navigateToIndustrySectionActions s
      = hoverOnIndustriesActions ++ openSectionActions s ∧
    ((∀ x ∈ navigateToIndustrySectionActions s, env x = .ok ()) →
      runActions env (navigateToIndustrySectionActions s)
        = (.ok (), navigateToIndustrySectionActions s)) ∧
    (navigateToIndustrySectionActions s = pre ++ act :: post →
      (∀ x ∈ pre, env x = .ok ()) → env act = .error e →
      runActions env (navigateToIndustrySectionActions s)
        = (.error e, pre ++ [act])) ∧
    ((∀ x ∈ getTileContentActions t, env x = .ok ()) →
      runActions env (getTileContentActions t)
        = (.ok (), getTileContentActions t)) ∧
    (getTileContentActions t = pre ++ act :: post →
      (∀ x ∈ pre, env x = .ok ()) → env act = .error e →
      runActions env (getTileContentActions t) = (.error e, pre ++ [act])) := by
  refine ⟨rfl, ?_, ?_, ?_, ?_⟩
  · exact runActions_all_ok env _
  · intro hsplit hpre hact
    rw [hsplit]
    exact runActions_first_error env pre act post e hpre hact
  · exact runActions_all_ok env _
  · intro hsplit hpre hact
    rw [hsplit]
    exact runActions_first_error env pre act post e hpre hact

/-- Witness for C7: an environment in which the section-link click fails
with "boom"; the navigation flow fails with exactly "boom" after the
hover, the animation wait, the link wait, and the single click attempt. -/
theorem orchestrator_sequences_propagate_failures_witness :
    runActions
      (fun a =>
        match a with
        | .clickElement _ => .error "boom"
        | _ => .ok ())
      (navigateToIndustrySectionActions "Retirement and Wealth")
      = (.error "boom",
         [.waitForElement industriesSelector 10000,
          .hoverElement industriesSelector,
          .waitTimeout 1000,
          .waitForElement (sectionLinkSelector "Retirement and Wealth") 10000,
          .clickElement (sectionLinkSelector "Retirement and Wealth")]) :=
  (orchestrator_sequences_propagate_failures
    (fun a =>
      match a with
      | .clickElement _ => .error "boom"
      | _ => .ok ())
    "Retirement and Wealth" "Annuities" "boom"
    [.waitForElement industriesSelector 10000,
     .hoverElement industriesSelector,
     .waitTimeout 1000,
     .waitForElement (sectionLinkSelector "Retirement and Wealth") 10000]
    [.waitForLoadState, .waitTimeout 1000]
    (.clickElement (sectionLinkSelector "Retirement and Wealth"))).2.2.1
    (by decide) (by decide) (by decide)

/-- C8 counterexample: `RetirementPage.scrollToBottom` is a page-object
operation whose body is a single whole-page `evaluate` scroll — it
performs no bounded element wait at all, refuting "every Page Object
operation first waits for its target element". -/
theorem every_operation_waits_counterexample :
    beginsWithElementWait scrollToBottomActions = false ∧
    containsElementWait scrollToBottomActions = false ∧
    scrollToBottomActions = [.evalScrollToBottom] := by
  decide

/-- C8 amended: every element-targeted page-object operation
(`hoverOnIndustries`, `openSection`, `scrollToSection`,
`hoverAndCopyTextFromTile`, `clickButton`) first waits for its target
element bounded by a 10000 ms timeout and only then acts, and when the
environment fails such waits with error `e`, the operation fails with `e`
having executed nothing but the wait; `scrollToBottom` (a whole-page
scroll with no target element) performs no element wait. -/
theorem element_operations_wait_first (s hd t b e : String)
    (env : PAction → Except String Unit)
    (henv : ∀ sel ms, env (.waitForElement sel ms) = .error e) :
    hoverOnIndustriesActions.head?
      = some (.waitForElement industriesSelector 10000) ∧
    (openSectionActions s).head?
      = some (.waitForElement (sectionLinkSelector s) 10000) ∧
    (scrollToSectionActions hd).head?
      = some (.waitForElement (sectionHeadingSelector hd) 10000) ∧
    (hoverAndCopyTextFromTileActions t).head?
      = some (.waitForElement (tileSelector t) 10000) ∧
    (clickButtonActions b).head?
      = some (.waitForElement (buttonSelector b) 10000) ∧
    runActions env hoverOnIndustriesActions
      = (.error e, [.waitForElement industriesSelector 10000]) ∧
    runActions env (clickButtonActions b)
      = (.error e, [.waitForElement (buttonSelector b) 10000]) ∧
    beginsWithElementWait scrollToBottomActions = false := by
  refine ⟨rfl, rfl, rfl, rfl, rfl, ?_, ?_, rfl⟩
  · simp [runActions, hoverOnIndustriesActions, henv]
  · simp [runActions, clickButtonActions, henv]

/-- Witness for the amended C8: an environment failing every element wait
with "timeout exceeded". -/
theorem element_operations_wait_first_witness :
    hoverOnIndustriesActions.head?
      = some (.waitForElement industriesSelector 10000) ∧
    (openSectionActions "Retirement and Wealth").head?
      = some (.waitForElement
          (sectionLinkSelector "Retirement and Wealth") 10000) ∧
    (scrollToSectionActions "Investment accounts").head?
      = some (.waitForElement
          (sectionHeadingSelector "Investment accounts") 10000) ∧
    (hoverAndCopyTextFromTileActions "Annuities").head?
      = some (.waitForElement (tileSelector "Annuities") 10000) ∧
    (clickButtonActions "Contact us").head?
      = some (.waitForElement (buttonSelector "Contact us") 10000) ∧
    runActions
      (fun a =>
        match a with
        | .waitForElement _ _ => .error "timeout exceeded"
        | _ => .ok ())
      hoverOnIndustriesActions
      = (.error "timeout exceeded",
         [.waitForElement industriesSelector 10000]) ∧
    runActions
      (fun a =>
        match a with
        | .waitForElement _ _ => .error "timeout exceeded"
        | _ => .ok ())
      (clickButtonActions "Contact us")
      = (.error "timeout exceeded",
         [.waitForElement (buttonSelector "Contact us") 10000]) ∧
    beginsWithElementWait scrollToBottomActions = false :=
  element_operations_wait_first "Retirement and Wealth"
    "Investment accounts" "Annuities" "Contact us" "timeout exceeded"
    (fun a =>
      match a with
      | .waitForElement _ _ => .error "timeout exceeded"
      | _ => .ok ())
    (fun _ _ => rfl)

/-- C6: at scenario end with the page and context handles present (as the
scenario-start hook guarantees), the `After` hook writes a screenshot
artifact exactly when the result status is failed (and never more than
one), always writes exactly one trace artifact whatever the status, and
closes the page and the browsing context. -/
theorem after_hook_artifacts (st : ScenarioStatus) (hasPage hasContext : Bool)
    (hp : hasPage = true) (hc : hasContext = true) :
    ((afterHook st hasPage hasContext).screenshotsWritten = 1 ↔
      st = ScenarioStatus.failed) ∧
    (afterHook st hasPage hasContext).screenshotsWritten ≤ 1 ∧
    (afterHook st hasPage hasContext).tracesWritten = 1 ∧
    (afterHook st hasPage hasContext).pageClosed = true ∧
    (afterHook st hasPage hasContext).contextClosed = true := by
  subst hp; subst hc
  by_cases hst : st = ScenarioStatus.failed
  · simp [afterHook, hst]
  · simp [afterHook, hst]

/-- Witness for C6 at a failed scenario with both handles present. -/
theorem after_hook_artifacts_witness :
    ((afterHook ScenarioStatus.failed true true).screenshotsWritten = 1 ↔
      ScenarioStatus.failed = ScenarioStatus.failed) ∧
    (afterHook ScenarioStatus.failed true true).screenshotsWritten ≤ 1 ∧
    (afterHook ScenarioStatus.failed true true).tracesWritten = 1 ∧
    (afterHook ScenarioStatus.failed true true).pageClosed = true ∧
    (afterHook ScenarioStatus.failed true true).contextClosed = true :=
  after_hook_artifacts ScenarioStatus.failed true true rfl rfl

end BFQA
